import Mathlib

/-!
Verification of the JSON-with-comments comment-stripping scanner.

The development embeds, over `List Char`, the two finite-state scanners of the
repository:

* `JWC` models `json_with_comments.py`: the canonical scanner
  `replace_json_comments_by_whitespace`, whose transition table holds 22
  explicit entries and falls back to the `OTHER` row of the current state for
  every combination that is absent.  The dictionary lookup of the Python code
  is modelled faithfully with `Option`: a missing key yields `none`, so the
  totality of the scan is a theorem, not an assumption.
* `JWCF` models `json_with_comments_fsm.py`: the variant scanner
  `remove_comments_from_json_with_comments`, whose transition table is given
  in full (49 entries) and which deletes comment characters instead of
  replacing them with spaces.

The spec's full transition table of section 4.2 is transcribed separately as
`Spec421.spec_transition_table` and compared with the code's table.
-/

/-- Character classes distinguished while scanning JSON-with-comments.
Both source files define this same enumeration. -/
inductive CharacterClass where
  | FSLASH  -- forward slash
  | BSLASH  -- back slash
  | QUOTE   -- string quote
  | CR      -- carriage return
  | NL      -- newline
  | STAR    -- star (asterisk)
  | OTHER   -- any other character
deriving DecidableEq, Repr

/-- The character-classification dictionary, shared verbatim by both source
files: explicit entries for the six special characters, absent keys meaning
`OTHER`. -/
def _character_classifications (c : Char) : Option CharacterClass :=
  if c = '/' then some CharacterClass.FSLASH
  else if c = '\\' then some CharacterClass.BSLASH
  else if c = '\"' then some CharacterClass.QUOTE
  else if c = '\r' then some CharacterClass.CR
  else if c = '\n' then some CharacterClass.NL
  else if c = '*' then some CharacterClass.STAR
  else none

/-- `_character_classifications.get(c, CharacterClass.OTHER)`: total
classification of a character. -/
def classifyChar (c : Char) : CharacterClass :=
  (_character_classifications c).getD CharacterClass.OTHER

namespace JWC

/-- FSM states of `json_with_comments.py`. -/
inductive FsmState where
  | DEFAULT             -- default state ; not scanning a string or comment.
  | COMMENT_INTRO       -- accepted a slash ; the start of a line or block comment.
  | LINE_COMMENT        -- accepted a double slash ; scanning a line comment.
  | BLOCK_COMMENT       -- accepted slash-star ; scanning a block comment.
  | BLOCK_COMMENT_STAR  -- scanning a block comment, and just scanned a star.
  | STRING              -- accepted a quote ; scanning a string.
  | STRING_BACKSLASH    -- scanning a string, and just scanned a backslash.
deriving DecidableEq, Repr

/-- FSM actions of `json_with_comments.py`. -/
inductive FsmAction where
  | EMIT_NOTHING              -- emit nothing
  | EMIT_CURRENT              -- emit the current character
  | EMIT_FSLASH_THEN_CURRENT  -- emit forward slash followed by current character
  | EMIT_ONE_SPACE            -- emit one space character
  | EMIT_TWO_SPACES           -- emit two space characters
deriving DecidableEq, Repr

open FsmState FsmAction

/-- The 22-entry transition table of `json_with_comments.py`, as a partial map
`(state, character_class) -> (action, next_state)`; combinations that are not
explicitly specified are absent (`none`). -/
def _fsm_definition : FsmState → CharacterClass → Option (FsmAction × FsmState)
  | DEFAULT            , .FSLASH => some (EMIT_NOTHING             , COMMENT_INTRO     )
  | DEFAULT            , .QUOTE  => some (EMIT_CURRENT             , STRING            )
  | DEFAULT            , .OTHER  => some (EMIT_CURRENT             , DEFAULT           )
  | COMMENT_INTRO      , .FSLASH => some (EMIT_TWO_SPACES          , LINE_COMMENT      )
  | COMMENT_INTRO      , .STAR   => some (EMIT_TWO_SPACES          , BLOCK_COMMENT     )
  | COMMENT_INTRO      , .OTHER  => some (EMIT_FSLASH_THEN_CURRENT , DEFAULT           )
  | LINE_COMMENT       , .CR     => some (EMIT_CURRENT             , LINE_COMMENT      )
  | LINE_COMMENT       , .NL     => some (EMIT_CURRENT             , DEFAULT           )
  | LINE_COMMENT       , .OTHER  => some (EMIT_ONE_SPACE           , LINE_COMMENT      )
  | BLOCK_COMMENT      , .CR     => some (EMIT_CURRENT             , BLOCK_COMMENT     )
  | BLOCK_COMMENT      , .NL     => some (EMIT_CURRENT             , BLOCK_COMMENT     )
  | BLOCK_COMMENT      , .STAR   => some (EMIT_ONE_SPACE           , BLOCK_COMMENT_STAR)
  | BLOCK_COMMENT      , .OTHER  => some (EMIT_ONE_SPACE           , BLOCK_COMMENT     )
  | BLOCK_COMMENT_STAR , .FSLASH => some (EMIT_ONE_SPACE           , DEFAULT           )
  | BLOCK_COMMENT_STAR , .CR     => some (EMIT_CURRENT             , BLOCK_COMMENT     )
  | BLOCK_COMMENT_STAR , .NL     => some (EMIT_CURRENT             , BLOCK_COMMENT     )
  | BLOCK_COMMENT_STAR , .STAR   => some (EMIT_ONE_SPACE           , BLOCK_COMMENT_STAR)
  | BLOCK_COMMENT_STAR , .OTHER  => some (EMIT_ONE_SPACE           , BLOCK_COMMENT     )
  | STRING             , .BSLASH => some (EMIT_CURRENT             , STRING_BACKSLASH  )
  | STRING             , .QUOTE  => some (EMIT_CURRENT             , DEFAULT           )
  | STRING             , .OTHER  => some (EMIT_CURRENT             , STRING            )
  | STRING_BACKSLASH   , .OTHER  => some (EMIT_CURRENT             , STRING            )
  | _                  , _       => none

/-- The scan-loop lookup of `replace_json_comments_by_whitespace`: if the
`(state, character_class)` key is absent from the table, the key
`(state, CharacterClass.OTHER)` is used instead; the final dictionary access
itself may in principle miss (`none` models Python's `KeyError`). -/
def fsm_apply (state : FsmState) (character_class : CharacterClass) :
    Option (FsmAction × FsmState) :=
  if (_fsm_definition state character_class).isSome then
    _fsm_definition state character_class
  else
    _fsm_definition state CharacterClass.OTHER

/-- The characters appended to the output buffer for one action, as performed
by the action dispatch of `replace_json_comments_by_whitespace`. -/
def emit (action : FsmAction) (current_character : Char) : List Char :=
  match action with
  | EMIT_NOTHING => []
  | EMIT_CURRENT => [current_character]
  | EMIT_FSLASH_THEN_CURRENT => ['/', current_character]
  | EMIT_ONE_SPACE => [' ']
  | EMIT_TWO_SPACES => [' ', ' ']

/-- The character scan loop of `replace_json_comments_by_whitespace`:
classify the character, look up `(action, next_state)` with the
fallback-to-`OTHER` rule, perform the action, move to the next state.
Returns the emitted output and the final state, or `none` on a lookup miss. -/
def scanLoop : FsmState → List Char → Option (List Char × FsmState)
  | state, [] => some ([], state)
  | state, current_character :: rest =>
    match fsm_apply state (classifyChar current_character) with
    | none => none
    | some (action, next_state) =>
      match scanLoop next_state rest with
      | none => none
      | some (out, final_state) =>
        some (emit action current_character ++ out, final_state)

/-- `replace_json_comments_by_whitespace` of `json_with_comments.py`.
After the scan, the finalizer re-emits a dangling slash when the scan ended in
`COMMENT_INTRO`, raises `JSONWithCommentsError` (modelled as `Except.error`)
when it ended in `BLOCK_COMMENT` or `BLOCK_COMMENT_STAR`, and otherwise
returns the accumulated output. -/
def replace_json_comments_by_whitespace (input_string : List Char) :
    Option (Except String (List Char)) :=
  match scanLoop FsmState.DEFAULT input_string with
  | none => none
  | some (out, state) =>
    if state = FsmState.COMMENT_INTRO then
      some (Except.ok (out ++ ['/']))
    else if state = FsmState.BLOCK_COMMENT ∨ state = FsmState.BLOCK_COMMENT_STAR then
      some (Except.error ("Unterminated block comment."))
    else
      some (Except.ok out)

/-! Proof devices for the canonical scanner: a total step function (justified
by the decidable fact that the fallback lookup never misses), a total scan,
and lemmas connecting them to the faithful `Option`-level definitions. -/

/-- Every `(state, class)` lookup of the scan loop succeeds: the table holds an
`OTHER` entry for each state, so the fallback never misses. -/
theorem fsm_apply_isSome : ∀ st cc, (fsm_apply st cc).isSome = true := by
  intro st cc
  cases st <;> cases cc <;> rfl

/-- Total version of the scan-loop lookup (the default value is never used,
by `fsm_apply_eq_step`). -/
def fsmStep (st : FsmState) (cc : CharacterClass) : FsmAction × FsmState :=
  (fsm_apply st cc).getD (FsmAction.EMIT_CURRENT, FsmState.DEFAULT)

theorem fsm_apply_eq_step : ∀ st cc, fsm_apply st cc = some (fsmStep st cc) := by
  intro st cc
  cases st <;> cases cc <;> rfl

/-- Total version of the scan loop. -/
def scanT : FsmState → List Char → List Char × FsmState
  | st, [] => ([], st)
  | st, c :: rest =>
    (emit (fsmStep st (classifyChar c)).1 c ++ (scanT (fsmStep st (classifyChar c)).2 rest).1,
     (scanT (fsmStep st (classifyChar c)).2 rest).2)

theorem scanT_nil (st : FsmState) : scanT st [] = ([], st) := rfl

theorem scanT_cons (st : FsmState) (c : Char) (rest : List Char) :
    scanT st (c :: rest) =
      (emit (fsmStep st (classifyChar c)).1 c ++ (scanT (fsmStep st (classifyChar c)).2 rest).1,
       (scanT (fsmStep st (classifyChar c)).2 rest).2) := rfl

theorem scanLoop_eq_scanT : ∀ (l : List Char) (st : FsmState),
    scanLoop st l = some (scanT st l) := by
  intro l
  induction l with
  | nil => intro st; rfl
  | cons c rest ih =>
    intro st
    rw [scanLoop, fsm_apply_eq_step]
    show (match scanLoop (fsmStep st (classifyChar c)).2 rest with
      | none => none
      | some (out, final_state) =>
        some (emit (fsmStep st (classifyChar c)).1 c ++ out, final_state)) =
      some (scanT st (c :: rest))
    rw [ih]
    rfl

/-- Total version of `replace_json_comments_by_whitespace`. -/
def replaceT (input_string : List Char) : Except String (List Char) :=
  if (scanT FsmState.DEFAULT input_string).2 = FsmState.COMMENT_INTRO then
    Except.ok ((scanT FsmState.DEFAULT input_string).1 ++ ['/'])
  else if (scanT FsmState.DEFAULT input_string).2 = FsmState.BLOCK_COMMENT ∨
      (scanT FsmState.DEFAULT input_string).2 = FsmState.BLOCK_COMMENT_STAR then
    Except.error ("Unterminated block comment.")
  else
    Except.ok (scanT FsmState.DEFAULT input_string).1

theorem replace_eq_replaceT (l : List Char) :
    replace_json_comments_by_whitespace l = some (replaceT l) := by
  rw [replace_json_comments_by_whitespace, scanLoop_eq_scanT, replaceT]
  by_cases h1 : (scanT FsmState.DEFAULT l).2 = FsmState.COMMENT_INTRO
  · simp [h1]
  · by_cases h2 : (scanT FsmState.DEFAULT l).2 = FsmState.BLOCK_COMMENT ∨
        (scanT FsmState.DEFAULT l).2 = FsmState.BLOCK_COMMENT_STAR
    · simp [h1, h2]
    · simp [h1, h2]

/-- The characters that have been consumed by the scanner but not yet emitted:
a single forward slash in the `COMMENT_INTRO` state, nothing otherwise. -/
def pending (st : FsmState) : List Char :=
  if st = FsmState.COMMENT_INTRO then ['/'] else []

/-- The scan output aligned with the input: the emitted characters followed by
the pending slash of the final state.  For a successful scan from `DEFAULT`
this equals the string returned by `replace_json_comments_by_whitespace`. -/
def alignedScan : FsmState → List Char → List Char
  | st, [] => pending st
  | st, c :: rest =>
    emit (fsmStep st (classifyChar c)).1 c ++ alignedScan (fsmStep st (classifyChar c)).2 rest

theorem alignedScan_nil (st : FsmState) : alignedScan st [] = pending st := rfl

theorem alignedScan_cons (st : FsmState) (c : Char) (rest : List Char) :
    alignedScan st (c :: rest) =
      emit (fsmStep st (classifyChar c)).1 c ++
        alignedScan (fsmStep st (classifyChar c)).2 rest := rfl

theorem alignedScan_eq_scanT (l : List Char) : ∀ st,
    alignedScan st l = (scanT st l).1 ++ pending (scanT st l).2 := by
  induction l with
  | nil => intro st; simp [alignedScan_nil, scanT_nil]
  | cons c rest ih =>
    intro st
    rw [alignedScan_cons, scanT_cons, ih, List.append_assoc]

theorem replaceT_ok_eq_aligned (l out : List Char) (h : replaceT l = Except.ok out) :
    out = alignedScan FsmState.DEFAULT l := by
  rw [alignedScan_eq_scanT]
  rw [replaceT] at h
  by_cases h1 : (scanT FsmState.DEFAULT l).2 = FsmState.COMMENT_INTRO
  · rw [if_pos h1] at h
    cases h
    rw [h1]
    rfl
  · rw [if_neg h1] at h
    by_cases h2 : (scanT FsmState.DEFAULT l).2 = FsmState.BLOCK_COMMENT ∨
        (scanT FsmState.DEFAULT l).2 = FsmState.BLOCK_COMMENT_STAR
    · rw [if_pos h2] at h
      cases h
    · rw [if_neg h2] at h
      cases h
      rw [pending, if_neg h1]
      simp

/-- Characterization of the classifier: each special class is assigned to
exactly its character. -/
theorem classifyChar_spec (c : Char) :
    (classifyChar c = CharacterClass.FSLASH ↔ c = '/') ∧
    (classifyChar c = CharacterClass.BSLASH ↔ c = '\\') ∧
    (classifyChar c = CharacterClass.QUOTE ↔ c = '\"') ∧
    (classifyChar c = CharacterClass.CR ↔ c = '\r') ∧
    (classifyChar c = CharacterClass.NL ↔ c = '\n') ∧
    (classifyChar c = CharacterClass.STAR ↔ c = '*') := by
  unfold classifyChar _character_classifications
  split_ifs <;> subst_vars <;> simp_all

/-! Position fidelity: each output character is the corresponding input
character or a space, and carriage returns / newlines are always preserved. -/

/-- Relation between an output character and the input character at the same
position: the output is the input character itself or a space, and a carriage
return or newline is always passed through unchanged. -/
def charFidelity (o c : Char) : Prop :=
  (o = c ∨ o = ' ') ∧ ((c = '\r' ∨ c = '\n') → o = c)

theorem fid_refl (c : Char) : charFidelity c c := ⟨Or.inl rfl, fun _ => rfl⟩

theorem fid_space {c : Char} (hcr : c ≠ '\r') (hnl : c ≠ '\n') : charFidelity ' ' c :=
  ⟨Or.inr rfl, fun h => absurd h (not_or.mpr ⟨hcr, hnl⟩)⟩

theorem fid_space_slash : charFidelity ' ' '/' :=
  fid_space (by decide) (by decide)

theorem classify_ne_cr {c : Char} (h : classifyChar c ≠ CharacterClass.CR) : c ≠ '\r' := by
  intro hc
  subst hc
  exact h rfl

theorem classify_ne_nl {c : Char} (h : classifyChar c ≠ CharacterClass.NL) : c ≠ '\n' := by
  intro hc
  subst hc
  exact h rfl

/-- One scan step preserves position fidelity between the aligned output and
the input. -/
theorem step_fidelity (st : FsmState) (c : Char) (rest X : List Char)
    (h : List.Forall₂ charFidelity X
      (pending (fsmStep st (classifyChar c)).2 ++ rest)) :
    List.Forall₂ charFidelity
      (emit (fsmStep st (classifyChar c)).1 c ++ X)
      (pending st ++ c :: rest) := by
  cases hcc : classifyChar c <;> rw [hcc] at h <;> cases st <;>
    first
    | (have hc : c = '/' := (classifyChar_spec c).1.mp hcc
       subst hc
       exact h)
    | exact List.Forall₂.cons (fid_refl c) h
    | exact List.Forall₂.cons (fid_refl '/') (List.Forall₂.cons (fid_refl c) h)
    | exact List.Forall₂.cons
        (fid_space (classify_ne_cr (by simp [hcc])) (classify_ne_nl (by simp [hcc]))) h
    | exact List.Forall₂.cons fid_space_slash
        (List.Forall₂.cons
          (fid_space (classify_ne_cr (by simp [hcc])) (classify_ne_nl (by simp [hcc]))) h)

/-- The aligned scan output is character-for-character faithful to the
pending prefix followed by the input. -/
theorem alignedScan_fidelity (l : List Char) : ∀ st,
    List.Forall₂ charFidelity (alignedScan st l) (pending st ++ l) := by
  induction l with
  | nil =>
    intro st
    rw [alignedScan_nil, List.append_nil]
    exact List.forall₂_same.2 (fun x _ => fid_refl x)
  | cons c rest ih =>
    intro st
    exact step_fidelity st c rest _ (ih (fsmStep st (classifyChar c)).2)

/-- A successful run of the scanner yields an output that is pointwise
faithful to the input. -/
theorem replace_fidelity (s out : List Char)
    (h : replace_json_comments_by_whitespace s = some (Except.ok out)) :
    List.Forall₂ charFidelity out s := by
  rw [replace_eq_replaceT] at h
  have h' : replaceT s = Except.ok out := Option.some.inj h
  have := replaceT_ok_eq_aligned s out h'
  subst this
  have hfid := alignedScan_fidelity s FsmState.DEFAULT
  rw [pending] at hfid
  simpa using hfid

/-- Pointwise fidelity implies equality of newline counts. -/
theorem forall₂_fidelity_count_nl {a b : List Char}
    (h : List.Forall₂ charFidelity a b) : a.count '\n' = b.count '\n' := by
  induction h with
  | nil => rfl
  | @cons o c l1 l2 hf _ ih =>
    rw [List.count_cons, List.count_cons, ih]
    by_cases hc : c = '\n'
    · rw [hf.2 (Or.inr hc)]
    · have ho : o ≠ '\n' := by
        rcases hf.1 with h1 | h1
        · rw [h1]; exact hc
        · rw [h1]; decide
      simp [hc, ho]

/-! Inputs without comments: if the scan never enters a comment state, the
scanner reproduces its input exactly. -/

/-- States inside a comment body. -/
def inComment : FsmState → Bool
  | FsmState.LINE_COMMENT => true
  | FsmState.BLOCK_COMMENT => true
  | FsmState.BLOCK_COMMENT_STAR => true
  | _ => false

/-- The scan starting at `st` never enters a comment state (the formal reading
of "the input contains no comments"). -/
def commentFree : FsmState → List Char → Bool
  | _, [] => true
  | st, c :: rest =>
    !(inComment (fsmStep st (classifyChar c)).2) &&
      commentFree (fsmStep st (classifyChar c)).2 rest

theorem commentFree_aligned (l : List Char) : ∀ st,
    inComment st = false → commentFree st l = true →
    alignedScan st l = pending st ++ l ∧ inComment (scanT st l).2 = false := by
  induction l with
  | nil =>
    intro st h1 _
    exact ⟨by rw [alignedScan_nil, List.append_nil], by rw [scanT_nil]; exact h1⟩
  | cons c rest ih =>
    intro st h1 h2
    rw [commentFree, Bool.and_eq_true, Bool.not_eq_true'] at h2
    obtain ⟨h3, h4⟩ := h2
    obtain ⟨ha, hfin⟩ := ih (fsmStep st (classifyChar c)).2 h3 h4
    refine ⟨?_, by rw [scanT_cons]; exact hfin⟩
    rw [alignedScan_cons, ha]
    cases hcc : classifyChar c <;> rw [hcc] at h3 <;> cases st <;>
      first
      | exact absurd h1 (by decide)
      | exact absurd h3 (by decide)
      | rfl
      | (have hc : c = '/' := (classifyChar_spec c).1.mp hcc
         subst hc
         rfl)

/-- On a comment-free input the scanner succeeds and returns the input. -/
theorem replaceT_of_commentFree (s : List Char)
    (h : commentFree FsmState.DEFAULT s = true) :
    replaceT s = Except.ok s := by
  obtain ⟨ha, hfin⟩ := commentFree_aligned s FsmState.DEFAULT rfl h
  simp only [pending, if_neg (by decide : ¬(FsmState.DEFAULT = FsmState.COMMENT_INTRO)),
    List.nil_append] at ha
  have hs : (scanT FsmState.DEFAULT s).1 ++ pending ((scanT FsmState.DEFAULT s).2) = s :=
    (alignedScan_eq_scanT s FsmState.DEFAULT).symm.trans ha
  rw [replaceT]
  by_cases h1 : (scanT FsmState.DEFAULT s).2 = FsmState.COMMENT_INTRO
  · rw [if_pos h1]
    rw [h1, pending, if_pos rfl] at hs
    rw [hs]
  · have h2 : ¬((scanT FsmState.DEFAULT s).2 = FsmState.BLOCK_COMMENT ∨
        (scanT FsmState.DEFAULT s).2 = FsmState.BLOCK_COMMENT_STAR) := by
      intro hx
      cases hx with
      | inl hx => rw [hx] at hfin; exact absurd hfin (by decide)
      | inr hx => rw [hx] at hfin; exact absurd hfin (by decide)
    rw [if_neg h1, if_neg h2]
    rw [pending, if_neg h1, List.append_nil] at hs
    rw [hs]

/-! Rescanning the scanner's own output: the second scan emits every character
verbatim, which yields idempotence. -/

/-- The state of the second scan after consuming the output emitted so far by
the first scan: string states persist, every other state rescans as
`DEFAULT` (a pending slash has not yet been consumed by the second scan). -/
def rescanState : FsmState → FsmState
  | FsmState.STRING => FsmState.STRING
  | FsmState.STRING_BACKSLASH => FsmState.STRING_BACKSLASH
  | _ => FsmState.DEFAULT

/-- The final state of the second scan, given the final state of the first:
as `rescanState`, except that a pending slash at end of input drives the
second scan into `COMMENT_INTRO` as well. -/
def rescanFinal : FsmState → FsmState
  | FsmState.COMMENT_INTRO => FsmState.COMMENT_INTRO
  | st => rescanState st

theorem classify_slash_eq : classifyChar '/' = CharacterClass.FSLASH := rfl

theorem classify_space_eq : classifyChar ' ' = CharacterClass.OTHER := rfl

theorem scanT_append (u v : List Char) : ∀ st,
    scanT st (u ++ v) =
      ((scanT st u).1 ++ (scanT (scanT st u).2 v).1, (scanT (scanT st u).2 v).2) := by
  induction u with
  | nil => intro st; simp [scanT_nil]
  | cons c rest ih =>
    intro st
    rw [List.cons_append, scanT_cons, ih, scanT_cons]
    simp [List.append_assoc]

/-- Rescanning the characters emitted for one input character reproduces them
verbatim and tracks the first scan's next state. -/
theorem rescan_step (st : FsmState) (c : Char) :
    scanT (rescanState st) (emit (fsmStep st (classifyChar c)).1 c) =
      (emit (fsmStep st (classifyChar c)).1 c,
       rescanState (fsmStep st (classifyChar c)).2) := by
  cases hcc : classifyChar c <;> cases st <;>
    simp [scanT_cons, scanT_nil, emit, hcc, classify_slash_eq, classify_space_eq,
      fsmStep, fsm_apply, _fsm_definition, rescanState, Option.getD_some]

/-- Rescanning the aligned output of a scan from `st` emits it verbatim (up to
the pending slash of the final state) and ends in the rescan image of the
first scan's final state. -/
theorem rescan_aligned (l : List Char) : ∀ st,
    (scanT (rescanState st) (alignedScan st l)).2 = rescanFinal (scanT st l).2 ∧
    (scanT (rescanState st) (alignedScan st l)).1 ++
      pending (rescanFinal (scanT st l).2) = alignedScan st l := by
  induction l with
  | nil => intro st; cases st <;> exact ⟨rfl, rfl⟩
  | cons c rest ih =>
    intro st
    constructor
    · rw [alignedScan_cons, scanT_append, rescan_step, scanT_cons]
      exact (ih (fsmStep st (classifyChar c)).2).1
    · rw [alignedScan_cons, scanT_append, rescan_step, scanT_cons]
      show (emit (fsmStep st (classifyChar c)).1 c ++
          (scanT (rescanState (fsmStep st (classifyChar c)).2)
            (alignedScan (fsmStep st (classifyChar c)).2 rest)).1) ++
          pending (rescanFinal ((scanT (fsmStep st (classifyChar c)).2 rest)).2) =
        emit (fsmStep st (classifyChar c)).1 c ++ alignedScan (fsmStep st (classifyChar c)).2 rest
      rw [List.append_assoc, (ih (fsmStep st (classifyChar c)).2).2]

theorem rescanFinal_not_block : ∀ st,
    rescanFinal st ≠ FsmState.BLOCK_COMMENT ∧
    rescanFinal st ≠ FsmState.BLOCK_COMMENT_STAR := by
  intro st
  cases st <;> exact ⟨by decide, by decide⟩

/-- A successful scan is idempotent: running the scanner on its own output
succeeds and reproduces that output. -/
theorem replaceT_idem (s y : List Char) (h : replaceT s = Except.ok y) :
    replaceT y = Except.ok y := by
  have hy : y = alignedScan FsmState.DEFAULT s := replaceT_ok_eq_aligned s y h
  obtain ⟨h2, h1⟩ := rescan_aligned s FsmState.DEFAULT
  have hrs : rescanState FsmState.DEFAULT = FsmState.DEFAULT := rfl
  rw [hrs] at h2 h1
  rw [replaceT]
  subst hy
  by_cases hci : (scanT FsmState.DEFAULT (alignedScan FsmState.DEFAULT s)).2 =
      FsmState.COMMENT_INTRO
  · rw [if_pos hci]
    rw [hci] at h2
    rw [← h2, pending, if_pos rfl] at h1
    rw [h1]
  · have hnb := rescanFinal_not_block (scanT FsmState.DEFAULT s).2
    have hx : ¬((scanT FsmState.DEFAULT (alignedScan FsmState.DEFAULT s)).2 =
          FsmState.BLOCK_COMMENT ∨
        (scanT FsmState.DEFAULT (alignedScan FsmState.DEFAULT s)).2 =
          FsmState.BLOCK_COMMENT_STAR) := by
      rw [h2]
      intro hc
      cases hc with
      | inl hc => exact hnb.1 hc
      | inr hc => exact hnb.2 hc
    rw [if_neg hci, if_neg hx]
    rw [← h2] at h1
    rw [pending, if_neg hci, List.append_nil] at h1
    rw [h1]

end JWC

namespace JWCF

/-- FSM states of `json_with_comments_fsm.py`. -/
inductive FsmState where
  | START
  | MAYBE_COMMENT
  | LINE_COMMENT
  | BLOCK_COMMENT
  | BLOCK_COMMENT_STAR
  | STRING
  | STRING_BACKSLASH
deriving DecidableEq, Repr

/-- FSM actions of `json_with_comments_fsm.py`. -/
inductive FsmAction where
  | EMIT_NOTHING
  | EMIT_CURRENT
  | EMIT_FSLASH_THEN_CURRENT
deriving DecidableEq, Repr

open FsmState FsmAction

/-- The full 49-entry transition table of `json_with_comments_fsm.py`. -/
def _fsm_definition : FsmState → CharacterClass → FsmAction × FsmState
  | START              , .FSLASH => (EMIT_NOTHING             , MAYBE_COMMENT     )
  | START              , .BSLASH => (EMIT_CURRENT             , START             )
  | START              , .QUOTE  => (EMIT_CURRENT             , STRING            )
  | START              , .CR     => (EMIT_CURRENT             , START             )
  | START              , .NL     => (EMIT_CURRENT             , START             )
  | START              , .STAR   => (EMIT_CURRENT             , START             )
  | START              , .OTHER  => (EMIT_CURRENT             , START             )
  | MAYBE_COMMENT      , .FSLASH => (EMIT_NOTHING             , LINE_COMMENT      )
  | MAYBE_COMMENT      , .BSLASH => (EMIT_FSLASH_THEN_CURRENT , START             )
  | MAYBE_COMMENT      , .QUOTE  => (EMIT_FSLASH_THEN_CURRENT , START             )
  | MAYBE_COMMENT      , .CR     => (EMIT_FSLASH_THEN_CURRENT , START             )
  | MAYBE_COMMENT      , .NL     => (EMIT_FSLASH_THEN_CURRENT , START             )
  | MAYBE_COMMENT      , .STAR   => (EMIT_NOTHING             , BLOCK_COMMENT     )
  | MAYBE_COMMENT      , .OTHER  => (EMIT_FSLASH_THEN_CURRENT , START             )
  | LINE_COMMENT       , .FSLASH => (EMIT_NOTHING             , LINE_COMMENT      )
  | LINE_COMMENT       , .BSLASH => (EMIT_NOTHING             , LINE_COMMENT      )
  | LINE_COMMENT       , .QUOTE  => (EMIT_NOTHING             , LINE_COMMENT      )
  | LINE_COMMENT       , .CR     => (EMIT_CURRENT             , LINE_COMMENT      )
  | LINE_COMMENT       , .NL     => (EMIT_CURRENT             , START             )
  | LINE_COMMENT       , .STAR   => (EMIT_NOTHING             , LINE_COMMENT      )
  | LINE_COMMENT       , .OTHER  => (EMIT_NOTHING             , LINE_COMMENT      )
  | BLOCK_COMMENT      , .FSLASH => (EMIT_NOTHING             , BLOCK_COMMENT     )
  | BLOCK_COMMENT      , .BSLASH => (EMIT_NOTHING             , BLOCK_COMMENT     )
  | BLOCK_COMMENT      , .QUOTE  => (EMIT_NOTHING             , BLOCK_COMMENT     )
  | BLOCK_COMMENT      , .CR     => (EMIT_CURRENT             , BLOCK_COMMENT     )
  | BLOCK_COMMENT      , .NL     => (EMIT_CURRENT             , BLOCK_COMMENT     )
  | BLOCK_COMMENT      , .STAR   => (EMIT_NOTHING             , BLOCK_COMMENT_STAR)
  | BLOCK_COMMENT      , .OTHER  => (EMIT_NOTHING             , BLOCK_COMMENT     )
  | BLOCK_COMMENT_STAR , .FSLASH => (EMIT_NOTHING             , START             )
  | BLOCK_COMMENT_STAR , .BSLASH => (EMIT_NOTHING             , BLOCK_COMMENT     )
  | BLOCK_COMMENT_STAR , .QUOTE  => (EMIT_NOTHING             , BLOCK_COMMENT     )
  | BLOCK_COMMENT_STAR , .CR     => (EMIT_CURRENT             , BLOCK_COMMENT     )
  | BLOCK_COMMENT_STAR , .NL     => (EMIT_CURRENT             , BLOCK_COMMENT     )
  | BLOCK_COMMENT_STAR , .STAR   => (EMIT_NOTHING             , BLOCK_COMMENT_STAR)
  | BLOCK_COMMENT_STAR , .OTHER  => (EMIT_NOTHING             , BLOCK_COMMENT     )
  | STRING             , .FSLASH => (EMIT_CURRENT             , STRING            )
  | STRING             , .BSLASH => (EMIT_CURRENT             , STRING_BACKSLASH  )
  | STRING             , .QUOTE  => (EMIT_CURRENT             , START             )
  | STRING             , .CR     => (EMIT_CURRENT             , STRING            )
  | STRING             , .NL     => (EMIT_CURRENT             , STRING            )
  | STRING             , .STAR   => (EMIT_CURRENT             , STRING            )
  | STRING             , .OTHER  => (EMIT_CURRENT             , STRING            )
  | STRING_BACKSLASH   , .FSLASH => (EMIT_CURRENT             , STRING            )
  | STRING_BACKSLASH   , .BSLASH => (EMIT_CURRENT             , STRING            )
  | STRING_BACKSLASH   , .QUOTE  => (EMIT_CURRENT             , STRING            )
  | STRING_BACKSLASH   , .CR     => (EMIT_CURRENT             , STRING            )
  | STRING_BACKSLASH   , .NL     => (EMIT_CURRENT             , STRING            )
  | STRING_BACKSLASH   , .STAR   => (EMIT_CURRENT             , STRING            )
  | STRING_BACKSLASH   , .OTHER  => (EMIT_CURRENT             , STRING            )

/-- The characters appended to the output for one action: a forward slash
first for `EMIT_FSLASH_THEN_CURRENT`, then the current character unless the
action is `EMIT_NOTHING`. -/
def emit (action : FsmAction) (current_character : Char) : List Char :=
  match action with
  | EMIT_NOTHING => []
  | EMIT_CURRENT => [current_character]
  | EMIT_FSLASH_THEN_CURRENT => ['/', current_character]

/-- The scan loop of `remove_comments_from_json_with_comments`. -/
def scan : FsmState → List Char → List Char × FsmState
  | st, [] => ([], st)
  | st, c :: rest =>
    (emit (_fsm_definition st (classifyChar c)).1 c ++
       (scan (_fsm_definition st (classifyChar c)).2 rest).1,
     (scan (_fsm_definition st (classifyChar c)).2 rest).2)

theorem scan_nil (st : FsmState) : scan st [] = ([], st) := rfl

theorem scan_cons (st : FsmState) (c : Char) (rest : List Char) :
    scan st (c :: rest) =
      (emit (_fsm_definition st (classifyChar c)).1 c ++
         (scan (_fsm_definition st (classifyChar c)).2 rest).1,
       (scan (_fsm_definition st (classifyChar c)).2 rest).2) := rfl

/-- `remove_comments_from_json_with_comments` of `json_with_comments_fsm.py`:
scan from `START`, raise `ValueError` (modelled as `Except.error`) when the
scan ends in `BLOCK_COMMENT` or `BLOCK_COMMENT_STAR`, otherwise return the
output with comment characters removed. -/
def remove_comments_from_json_with_comments (s : List Char) : Except String (List Char) :=
  if (scan FsmState.START s).2 = FsmState.BLOCK_COMMENT ∨
      (scan FsmState.START s).2 = FsmState.BLOCK_COMMENT_STAR then
    Except.error ("Unterminated block comment at end of string.")
  else
    Except.ok (scan FsmState.START s).1

end JWCF

/-! Correspondence between the canonical scanner and the variant scanner:
their next-state transition functions agree under the evident renaming of
states, hence both scans end in corresponding states. -/

/-- Renaming of the canonical scanner's states into the variant scanner's
states. -/
def stateToVariant : JWC.FsmState → JWCF.FsmState
  | JWC.FsmState.DEFAULT => JWCF.FsmState.START
  | JWC.FsmState.COMMENT_INTRO => JWCF.FsmState.MAYBE_COMMENT
  | JWC.FsmState.LINE_COMMENT => JWCF.FsmState.LINE_COMMENT
  | JWC.FsmState.BLOCK_COMMENT => JWCF.FsmState.BLOCK_COMMENT
  | JWC.FsmState.BLOCK_COMMENT_STAR => JWCF.FsmState.BLOCK_COMMENT_STAR
  | JWC.FsmState.STRING => JWCF.FsmState.STRING
  | JWC.FsmState.STRING_BACKSLASH => JWCF.FsmState.STRING_BACKSLASH

theorem variant_next_state_agrees : ∀ (st : JWC.FsmState) (cc : CharacterClass),
    (JWCF._fsm_definition (stateToVariant st) cc).2 =
      stateToVariant (JWC.fsmStep st cc).2 := by
  intro st cc
  cases st <;> cases cc <;> rfl

theorem variant_scan_state_agrees (l : List Char) : ∀ st : JWC.FsmState,
    (JWCF.scan (stateToVariant st) l).2 = stateToVariant (JWC.scanT st l).2 := by
  induction l with
  | nil => intro st; rw [JWCF.scan_nil, JWC.scanT_nil]
  | cons c rest ih =>
    intro st
    rw [JWCF.scan_cons, JWC.scanT_cons]
    show (JWCF.scan (JWCF._fsm_definition (stateToVariant st) (classifyChar c)).2 rest).2 =
      stateToVariant (JWC.scanT (JWC.fsmStep st (classifyChar c)).2 rest).2
    rw [variant_next_state_agrees]
    exact ih (JWC.fsmStep st (classifyChar c)).2

namespace Spec421

/-! The full transition table given in section 4.2 of the specification,
transcribed under the spec's own names.  The spec tabulates 22 rows and
states that every omitted `(state, class)` combination uses the `other` row
of the same state; the function below is that 49-combination expansion, with
each row either copied verbatim from the table or filled in from the
state's `other` row. -/

/-- The spec's `ScanState` (section 3). -/
inductive ScanState where
  | Default
  | CommentIntro
  | LineComment
  | BlockComment
  | BlockCommentStar
  | InString
  | InStringEscape
deriving DecidableEq, Repr

/-- The spec's `Action` (section 3). -/
inductive Action where
  | EmitNothing
  | EmitCurrent
  | EmitFslashThenCurrent
  | EmitOneSpace
  | EmitTwoSpaces
deriving DecidableEq, Repr

open ScanState Action

/-- The spec's full `(state, class) → (action, next state)` function of
section 4.2: the tabulated rows, with every omitted combination resolved to
the `other` row of its state. -/
def spec_transition_table : ScanState → CharacterClass → Action × ScanState
  | Default          , .FSLASH => (EmitNothing           , CommentIntro    )
  | Default          , .BSLASH => (EmitCurrent           , Default         )
  | Default          , .QUOTE  => (EmitCurrent           , InString        )
  | Default          , .CR     => (EmitCurrent           , Default         )
  | Default          , .NL     => (EmitCurrent           , Default         )
  | Default          , .STAR   => (EmitCurrent           , Default         )
  | Default          , .OTHER  => (EmitCurrent           , Default         )
  | CommentIntro     , .FSLASH => (EmitTwoSpaces         , LineComment     )
  | CommentIntro     , .BSLASH => (EmitFslashThenCurrent , Default         )
  | CommentIntro     , .QUOTE  => (EmitFslashThenCurrent , Default         )
  | CommentIntro     , .CR     => (EmitFslashThenCurrent , Default         )
  | CommentIntro     , .NL     => (EmitFslashThenCurrent , Default         )
  | CommentIntro     , .STAR   => (EmitTwoSpaces         , BlockComment    )
  | CommentIntro     , .OTHER  => (EmitFslashThenCurrent , Default         )
  | LineComment      , .FSLASH => (EmitOneSpace          , LineComment     )
  | LineComment      , .BSLASH => (EmitOneSpace          , LineComment     )
  | LineComment      , .QUOTE  => (EmitOneSpace          , LineComment     )
  | LineComment      , .CR     => (EmitCurrent           , LineComment     )
  | LineComment      , .NL     => (EmitCurrent           , Default         )
  | LineComment      , .STAR   => (EmitOneSpace          , LineComment     )
  | LineComment      , .OTHER  => (EmitOneSpace          , LineComment     )
  | BlockComment     , .FSLASH => (EmitOneSpace          , BlockComment    )
  | BlockComment     , .BSLASH => (EmitOneSpace          , BlockComment    )
  | BlockComment     , .QUOTE  => (EmitOneSpace          , BlockComment    )
  | BlockComment     , .CR     => (EmitCurrent           , BlockComment    )
  | BlockComment     , .NL     => (EmitCurrent           , BlockComment    )
  | BlockComment     , .STAR   => (EmitOneSpace          , BlockCommentStar)
  | BlockComment     , .OTHER  => (EmitOneSpace          , BlockComment    )
  | BlockCommentStar , .FSLASH => (EmitOneSpace          , Default         )
  | BlockCommentStar , .BSLASH => (EmitOneSpace          , BlockComment    )
  | BlockCommentStar , .QUOTE  => (EmitOneSpace          , BlockComment    )
  | BlockCommentStar , .CR     => (EmitCurrent           , BlockComment    )
  | BlockCommentStar , .NL     => (EmitCurrent           , BlockComment    )
  | BlockCommentStar , .STAR   => (EmitOneSpace          , BlockCommentStar)
  | BlockCommentStar , .OTHER  => (EmitOneSpace          , BlockComment    )
  | InString         , .FSLASH => (EmitCurrent           , InString        )
  | InString         , .BSLASH => (EmitCurrent           , InStringEscape  )
  | InString         , .QUOTE  => (EmitCurrent           , Default         )
  | InString         , .CR     => (EmitCurrent           , InString        )
  | InString         , .NL     => (EmitCurrent           , InString        )
  | InString         , .STAR   => (EmitCurrent           , InString        )
  | InString         , .OTHER  => (EmitCurrent           , InString        )
  | InStringEscape   , .FSLASH => (EmitCurrent           , InString        )
  | InStringEscape   , .BSLASH => (EmitCurrent           , InString        )
  | InStringEscape   , .QUOTE  => (EmitCurrent           , InString        )
  | InStringEscape   , .CR     => (EmitCurrent           , InString        )
  | InStringEscape   , .NL     => (EmitCurrent           , InString        )
  | InStringEscape   , .STAR   => (EmitCurrent           , InString        )
  | InStringEscape   , .OTHER  => (EmitCurrent           , InString        )

end Spec421

/-- Renaming of the code's states into the spec's states. -/
def stateToSpec : JWC.FsmState → Spec421.ScanState
  | JWC.FsmState.DEFAULT => Spec421.ScanState.Default
  | JWC.FsmState.COMMENT_INTRO => Spec421.ScanState.CommentIntro
  | JWC.FsmState.LINE_COMMENT => Spec421.ScanState.LineComment
  | JWC.FsmState.BLOCK_COMMENT => Spec421.ScanState.BlockComment
  | JWC.FsmState.BLOCK_COMMENT_STAR => Spec421.ScanState.BlockCommentStar
  | JWC.FsmState.STRING => Spec421.ScanState.InString
  | JWC.FsmState.STRING_BACKSLASH => Spec421.ScanState.InStringEscape

/-- Renaming of the code's actions into the spec's actions. -/
def actionToSpec : JWC.FsmAction → Spec421.Action
  | JWC.FsmAction.EMIT_NOTHING => Spec421.Action.EmitNothing
  | JWC.FsmAction.EMIT_CURRENT => Spec421.Action.EmitCurrent
  | JWC.FsmAction.EMIT_FSLASH_THEN_CURRENT => Spec421.Action.EmitFslashThenCurrent
  | JWC.FsmAction.EMIT_ONE_SPACE => Spec421.Action.EmitOneSpace
  | JWC.FsmAction.EMIT_TWO_SPACES => Spec421.Action.EmitTwoSpaces

namespace JWC

/-- The scanner reports its error exactly when the scan ends in
`BLOCK_COMMENT` or `BLOCK_COMMENT_STAR`. -/
theorem replaceT_error_iff (s : List Char) :
    replaceT s = Except.error ("Unterminated block comment.") ↔
      ((scanT FsmState.DEFAULT s).2 = FsmState.BLOCK_COMMENT ∨
       (scanT FsmState.DEFAULT s).2 = FsmState.BLOCK_COMMENT_STAR) := by
  rw [replaceT]
  split_ifs with h1 h2 <;> simp_all

/-- The scanner's only error message. -/
theorem replaceT_error_msg (s : List Char) (m : String)
    (h : replaceT s = Except.error m) : m = ("Unterminated block comment.") := by
  rw [replaceT] at h
  split_ifs at h
  all_goals simp_all

end JWC

theorem stateToVariant_block_iff (st : JWC.FsmState) :
    (stateToVariant st = JWCF.FsmState.BLOCK_COMMENT ∨
     stateToVariant st = JWCF.FsmState.BLOCK_COMMENT_STAR) ↔
    (st = JWC.FsmState.BLOCK_COMMENT ∨ st = JWC.FsmState.BLOCK_COMMENT_STAR) := by
  cases st
  all_goals decide

/-! The claims. -/

/-- C1: for every scan step, the `(action, next_state)` pair the code applies
for the current `(state, character class)` — the 22-entry `_fsm_definition`
together with its fallback-to-`OTHER` lookup — is exactly the corresponding
entry of the spec's full 49-combination transition table of section 4.2
(under the renaming of states and actions to the spec's names). -/
theorem claim_C1_fsm_realises_spec_table :
    ∀ (st : JWC.FsmState) (cc : CharacterClass),
      Option.map (fun p => (actionToSpec p.1, stateToSpec p.2)) (JWC.fsm_apply st cc) =
        some (Spec421.spec_transition_table (stateToSpec st) cc) := by
  intro st cc
  cases st <;> cases cc <;> rfl

/-- C2: whenever `replace_json_comments_by_whitespace` returns, the output has
the length of the input, each output character is the input character at the
same index or a space, carriage returns and newlines are preserved at their
index, and hence the newline count of the output equals that of the input. -/
theorem claim_C2_position_fidelity (s out : List Char)
    (h : JWC.replace_json_comments_by_whitespace s = some (Except.ok out)) :
    out.length = s.length ∧
    (∀ (i : ℕ) (h1 : i < out.length) (h2 : i < s.length),
      (out.get ⟨i, h1⟩ = s.get ⟨i, h2⟩ ∨ out.get ⟨i, h1⟩ = ' ') ∧
      ((s.get ⟨i, h2⟩ = '\r' ∨ s.get ⟨i, h2⟩ = '\n') →
        out.get ⟨i, h1⟩ = s.get ⟨i, h2⟩)) ∧
    out.count '\n' = s.count '\n' := by
  have hf := JWC.replace_fidelity s out h
  refine ⟨hf.length_eq, ?_, JWC.forall₂_fidelity_count_nl hf⟩
  intro i h1 h2
  exact (List.forall₂_iff_get.mp hf).2 i h1 h2

theorem claim_C2_position_fidelity_witness :
    (("   \n5").data).count '\n' = (("//c\n5").data).count '\n' :=
  (claim_C2_position_fidelity (("//c\n5").data) (("   \n5").data) rfl).2.2

/-- C3: the scanner raises its unterminated-block-comment error exactly when
the scan ends in `BLOCK_COMMENT` or `BLOCK_COMMENT_STAR`; no other message is
ever produced, and the example input fails with this error. -/
theorem claim_C3_error_iff_unterminated_block :
    (∀ s : List Char,
      JWC.replace_json_comments_by_whitespace s =
          some (Except.error ("Unterminated block comment.")) ↔
        ((JWC.scanT JWC.FsmState.DEFAULT s).2 = JWC.FsmState.BLOCK_COMMENT ∨
         (JWC.scanT JWC.FsmState.DEFAULT s).2 = JWC.FsmState.BLOCK_COMMENT_STAR)) ∧
    (∀ (s : List Char) (m : String),
      JWC.replace_json_comments_by_whitespace s = some (Except.error m) →
        m = ("Unterminated block comment.")) ∧
    JWC.replace_json_comments_by_whitespace (("\x7b\"a\":1\x7d /* oops").data) =
      some (Except.error ("Unterminated block comment.")) := by
  refine ⟨?_, ?_, rfl⟩
  · intro s
    rw [JWC.replace_eq_replaceT, Option.some.injEq]
    exact JWC.replaceT_error_iff s
  · intro s m h
    rw [JWC.replace_eq_replaceT, Option.some.injEq] at h
    exact JWC.replaceT_error_msg s m h

/-- C4: on any input whose scan never enters a comment state, the scanner
returns the input unchanged; in particular comment-like substrings inside
JSON string literals are untouched and an escaped quote does not terminate a
string. -/
theorem claim_C4_no_comments_identity :
    (∀ s : List Char, JWC.commentFree JWC.FsmState.DEFAULT s = true →
      JWC.replace_json_comments_by_whitespace s = some (Except.ok s)) ∧
    JWC.replace_json_comments_by_whitespace (("\x7b\"a\": \"// not a comment\"\x7d").data) =
      some (Except.ok (("\x7b\"a\": \"// not a comment\"\x7d").data)) ∧
    JWC.replace_json_comments_by_whitespace (("\"a\\\"b\"").data) =
      some (Except.ok (("\"a\\\"b\"").data)) := by
  refine ⟨?_, rfl, rfl⟩
  intro s h
  rw [JWC.replace_eq_replaceT, JWC.replaceT_of_commentFree s h]

theorem claim_C4_no_comments_identity_witness :
    JWC.replace_json_comments_by_whitespace (("[1, 2]").data) =
      some (Except.ok (("[1, 2]").data)) :=
  claim_C4_no_comments_identity.1 (("[1, 2]").data) rfl

/-- C5: when the scan ends in `COMMENT_INTRO` (the input ended in a lone
slash that was consumed without being classified as a comment opener), the
scanner succeeds and the finalizer re-appends that slash at the end of the
output. -/
theorem claim_C5_dangling_slash_reemitted (s : List Char)
    (h : (JWC.scanT JWC.FsmState.DEFAULT s).2 = JWC.FsmState.COMMENT_INTRO) :
    JWC.replace_json_comments_by_whitespace s =
      some (Except.ok ((JWC.scanT JWC.FsmState.DEFAULT s).1 ++ ['/'])) := by
  rw [JWC.replace_eq_replaceT, JWC.replaceT, if_pos h]

theorem claim_C5_dangling_slash_reemitted_witness :
    JWC.replace_json_comments_by_whitespace (("\x7b\"a\":1\x7d/").data) =
      some (Except.ok ((JWC.scanT JWC.FsmState.DEFAULT (("\x7b\"a\":1\x7d/").data)).1 ++ ['/'])) :=
  claim_C5_dangling_slash_reemitted (("\x7b\"a\":1\x7d/").data) rfl

/-- C6: the scanner is idempotent on its own successful output: if scanning
`s` succeeds with output `y`, then scanning `y` succeeds and returns `y`
unchanged. -/
theorem claim_C6_idempotent (s y : List Char)
    (h : JWC.replace_json_comments_by_whitespace s = some (Except.ok y)) :
    JWC.replace_json_comments_by_whitespace y = some (Except.ok y) := by
  rw [JWC.replace_eq_replaceT] at h
  rw [JWC.replace_eq_replaceT, JWC.replaceT_idem s y (Option.some.inj h)]

theorem claim_C6_idempotent_witness :
    JWC.replace_json_comments_by_whitespace (("   ").data) =
      some (Except.ok (("   ").data)) :=
  claim_C6_idempotent (("//x").data) (("   ").data) rfl

/-- C7: the 18-character line-comment example: the three comment characters
are replaced by exactly three spaces, the terminating newline is preserved,
and everything else is unchanged. -/
theorem claim_C7_line_comment_example :
    (("\x7b\"a\":1\x7d//c\n\x7b\"b\":2\x7d").data).length = 18 ∧
    JWC.replace_json_comments_by_whitespace (("\x7b\"a\":1\x7d//c\n\x7b\"b\":2\x7d").data) =
      some (Except.ok ((("\x7b\"a\":1\x7d") ++ ("   ") ++ ("\n") ++ ("\x7b\"b\":2\x7d")).data)) :=
  ⟨rfl, rfl⟩

/-- C8: the 7-character block-comment example spanning two newlines: every
comment character becomes a space while both embedded newlines are preserved
verbatim. -/
theorem claim_C8_block_comment_example :
    (("/*\nx\n*/").data).length = 7 ∧
    JWC.replace_json_comments_by_whitespace (("/*\nx\n*/").data) =
      some (Except.ok ((("  ") ++ ("\n") ++ (" ") ++ ("\n") ++ ("  ")).data)) ∧
    ((("  ") ++ ("\n") ++ (" ") ++ ("\n") ++ ("  ")).data).length = 7 :=
  ⟨rfl, rfl, rfl⟩

/-- C9: the transition lookup never misses — the table holds an `OTHER` entry
for every state, the fallback lookup always succeeds — and the scanner is
total: on every input it returns a result (a string or the error), never a
lookup failure. -/
theorem claim_C9_lookup_total :
    (∀ (st : JWC.FsmState) (cc : CharacterClass),
      (JWC.fsm_apply st cc).isSome = true) ∧
    (∀ st : JWC.FsmState,
      (JWC._fsm_definition st CharacterClass.OTHER).isSome = true) ∧
    (∀ s : List Char, ∃ r : Except String (List Char),
      JWC.replace_json_comments_by_whitespace s = some r) := by
  refine ⟨JWC.fsm_apply_isSome, ?_, ?_⟩
  · intro st
    cases st
    all_goals rfl
  · intro s
    exact ⟨JWC.replaceT s, JWC.replace_eq_replaceT s⟩

/-- C10: the canonical scanner and the variant scanner have identical
next-state transitions under the renaming of states, so on every input the
canonical scanner raises its unterminated-block-comment error exactly when
the variant raises its own. -/
theorem claim_C10_variant_raises_iff :
    (∀ (st : JWC.FsmState) (cc : CharacterClass),
      (JWCF._fsm_definition (stateToVariant st) cc).2 =
        stateToVariant (JWC.fsmStep st cc).2) ∧
    (∀ s : List Char,
      JWC.replace_json_comments_by_whitespace s =
          some (Except.error ("Unterminated block comment.")) ↔
        JWCF.remove_comments_from_json_with_comments s =
          Except.error ("Unterminated block comment at end of string.")) := by
  refine ⟨variant_next_state_agrees, ?_⟩
  intro s
  rw [JWC.replace_eq_replaceT, Option.some.injEq, JWC.replaceT_error_iff,
    JWCF.remove_comments_from_json_with_comments]
  have hs := variant_scan_state_agrees s JWC.FsmState.DEFAULT
  rw [show stateToVariant JWC.FsmState.DEFAULT = JWCF.FsmState.START from rfl] at hs
  rw [hs]
  constructor
  · intro h
    rw [if_pos ((stateToVariant_block_iff _).mpr h)]
  · intro h
    by_contra hn
    rw [if_neg (fun hx => hn ((stateToVariant_block_iff _).mp hx))] at h
    exact Except.noConfusion h
